import Mathlib

/-!
# RTOS_MC, Task_3: button long-press classifier driving an LED blink mode

Shallow embedding of `vidLED_Task` and `vidBUTTON_Task` from
`01-Introduction_To_FreeRTOS_Task/Task_3/Starter_Files_V0/source/main.c`, and of the three
fixed-rate blink tasks of `01-Introduction_To_FreeRTOS_Task/Task_2/Starter_Files_V0/source/main.c`.

* The body of each `for(;;)` loop is one function: one call is one loop iteration.
* Calls to the collaborators (`GPIO_read`, `GPIO_write`, `vTaskDelay`) are recorded
  as a list of `Action`s; the value returned by `GPIO_read` is an argument of the
  iteration.
* `uint8_t` and `unsigned int` values are `Nat`s reduced modulo `2 ^ 8` and
  `2 ^ UINT_BITS` where the C code can wrap.
-/

namespace RTOS_MC

/-! ## Types of the GPIO layer -/

/-- Modelled from the spec: `pinState_t` is declared in `GPIO.h`, which is not among the
sources; the spec gives `Level ∈ {HIGH, LOW}`. The two enumerators are the ones `main.c`
uses. -/
inductive pinState_t where
  | PIN_IS_LOW
  | PIN_IS_HIGH
  deriving DecidableEq

/-- Modelled from the spec: `portX_t` is declared in `GPIO.h`, which is not among the
sources; `PORT_0` is the only port the sources name, a second port keeps the type from
being a singleton. -/
inductive portX_t where
  | PORT_0
  | PORT_1
  deriving DecidableEq

/-- Modelled from the spec: `pinX_t` is declared in `GPIO.h`, which is not among the
sources; the enumerators are the pins the sources name. -/
inductive pinX_t where
  | PIN0
  | PIN1
  | PIN2
  deriving DecidableEq

/-- Calls to the external collaborators, in program order. -/
inductive Action where
  | GPIO_read (port : portX_t) (pin : pinX_t)
  | GPIO_write (port : portX_t) (pin : pinX_t) (level : pinState_t)
  | vTaskDelay (ticks : Nat)
  deriving DecidableEq

/-! ## Constants of `main.c` (lines 77-86) -/

def LED_PORT : portX_t := portX_t.PORT_0
def LED_PIN : pinX_t := pinX_t.PIN0
def BUTTON_PORT : portX_t := portX_t.PORT_0
def BUTTON_PIN : pinX_t := pinX_t.PIN1

def ZERO_VALUE : Nat := 0
def BUTTON_SCAN_PERIODICITY : Nat := 100
def TIME_2000MS : Nat := 2000
def TIME_4000MS : Nat := 4000

/-- Width of `unsigned int` on the target (ARM7, LPC21xx). -/
def UINT_BITS : Nat := 32

/-- Multiplication of two `unsigned int` values of width `w`. -/
def uintMul (w a b : Nat) : Nat := (a * b) % 2 ^ w

/-- The enumeration `ledToggleStatus_t` (lines 88-92). -/
inductive ledToggleStatus_t where
  | LED_TOGGLE_100MS
  | LED_TOGGLE_400MS
  | LED_TOGGLE_OFF
  deriving DecidableEq

open pinState_t ledToggleStatus_t

/-- The integer value of each enumerator, in declaration order. -/
def ledToggleStatus_t.toNat : ledToggleStatus_t → Nat
  | LED_TOGGLE_100MS => 0
  | LED_TOGGLE_400MS => 1
  | LED_TOGGLE_OFF => 2

/-! ## `vidLED_Task` (lines 107-130) -/

/-- The `switch` statement of `vidLED_Task` on an 8-bit scrutinee `v`: the actions of the
selected `case`, and nothing when no label matches. -/
def ledSwitch (v : Nat) : List Action :=
  if v = LED_TOGGLE_OFF.toNat then
    [Action.GPIO_write LED_PORT LED_PIN PIN_IS_LOW]
  else if v = LED_TOGGLE_100MS.toNat then
    [Action.GPIO_write LED_PORT LED_PIN PIN_IS_HIGH, Action.vTaskDelay 100,
     Action.GPIO_write LED_PORT LED_PIN PIN_IS_LOW, Action.vTaskDelay 100]
  else if v = LED_TOGGLE_400MS.toNat then
    [Action.GPIO_write LED_PORT LED_PIN PIN_IS_HIGH, Action.vTaskDelay 400,
     Action.GPIO_write LED_PORT LED_PIN PIN_IS_LOW, Action.vTaskDelay 400]
  else
    []

/-- One iteration of the loop of `vidLED_Task`, the shared `ledTogglStatus` being read
once, by `switch((uint8_t)ledTogglStatus)`. -/
def vidLED_Task_iter (ledTogglStatus : ledToggleStatus_t) : List Action :=
  ledSwitch (ledTogglStatus.toNat % 2 ^ 8)

/-- Number of `vTaskDelay` calls in a sequence of actions. -/
def countDelays : List Action → Nat
  | [] => 0
  | Action.vTaskDelay _ :: as => countDelays as + 1
  | _ :: as => countDelays as

/-- Whether every `GPIO_write` of a sequence of actions targets the given port and pin. -/
def writesOnly (port : portX_t) (pin : pinX_t) : List Action → Bool
  | [] => true
  | Action.GPIO_write p q _ :: as => decide (p = port) && decide (q = pin) && writesOnly port pin as
  | _ :: as => writesOnly port pin as

/-! ### `vidLED_Task` as a step machine

Program points of the loop body: the `switch` at the top, and the three statements that
follow the first `GPIO_write` in each blinking `case`. -/

/-- Program points of one loop iteration of `vidLED_Task`. -/
inductive LedPc where
  | atSwitch
  | c100_delayHigh
  | c100_writeLow
  | c100_delayLow
  | c400_delayHigh
  | c400_writeLow
  | c400_delayLow
  deriving DecidableEq

/-- One statement of `vidLED_Task`: `mode` is the value the shared `ledTogglStatus` holds
when the statement runs; only the `switch` reads it. -/
def ledStep (mode : ledToggleStatus_t) : LedPc → List Action × LedPc
  | LedPc.atSwitch =>
    let v := mode.toNat % 2 ^ 8
    if v = LED_TOGGLE_OFF.toNat then
      ([Action.GPIO_write LED_PORT LED_PIN PIN_IS_LOW], LedPc.atSwitch)
    else if v = LED_TOGGLE_100MS.toNat then
      ([Action.GPIO_write LED_PORT LED_PIN PIN_IS_HIGH], LedPc.c100_delayHigh)
    else if v = LED_TOGGLE_400MS.toNat then
      ([Action.GPIO_write LED_PORT LED_PIN PIN_IS_HIGH], LedPc.c400_delayHigh)
    else
      ([], LedPc.atSwitch)
  | LedPc.c100_delayHigh => ([Action.vTaskDelay 100], LedPc.c100_writeLow)
  | LedPc.c100_writeLow => ([Action.GPIO_write LED_PORT LED_PIN PIN_IS_LOW], LedPc.c100_delayLow)
  | LedPc.c100_delayLow => ([Action.vTaskDelay 100], LedPc.atSwitch)
  | LedPc.c400_delayHigh => ([Action.vTaskDelay 400], LedPc.c400_writeLow)
  | LedPc.c400_writeLow => ([Action.GPIO_write LED_PORT LED_PIN PIN_IS_LOW], LedPc.c400_delayLow)
  | LedPc.c400_delayLow => ([Action.vTaskDelay 400], LedPc.atSwitch)

/-- Run `vidLED_Task` from a program point, one statement per element of `modes`: the
element is the value of the shared `ledTogglStatus` at that statement, as left there by
whatever wrote it last. Returns the actions emitted and the program point reached. -/
def ledRun : LedPc → List ledToggleStatus_t → List Action × LedPc
  | pc, [] => ([], pc)
  | pc, m :: ms =>
    let r := ledStep m pc
    let rest := ledRun r.2 ms
    (r.1 ++ rest.1, rest.2)

/-- The sequence `c` repeated `k` times. -/
def repeatCycle : Nat → List Action → List Action
  | 0, _ => []
  | k + 1, c => c ++ repeatCycle k c

/-! ## `vidBUTTON_Task` (lines 133-180) -/

/-- The variables `vidBUTTON_Task` reads and writes: its three `static` locals and the
global `ledTogglStatus`. `loc_TimeCounter` is a `uint8_t`. -/
structure ButtonState where
  loc_ButtonCurrentStatus : pinState_t
  loc_ButtonPreviousStatus : pinState_t
  loc_TimeCounter : Nat
  ledTogglStatus : ledToggleStatus_t
  deriving DecidableEq

/-- The expression `loc_TimeCounter*BUTTON_SCAN_PERIODICITY`: the counter is promoted and
multiplied by `100u` in `unsigned int`. -/
def heldMs (loc_TimeCounter : Nat) : Nat :=
  uintMul UINT_BITS loc_TimeCounter BUTTON_SCAN_PERIODICITY

/-- One iteration of the loop of `vidBUTTON_Task`; `sample` is what `GPIO_read` returns.
Returns the new state and the collaborator calls made. -/
def vidBUTTON_Task_body (sample : pinState_t) (s : ButtonState) : ButtonState × List Action :=
  let s1 : ButtonState := { s with loc_ButtonCurrentStatus := sample }
  let s2 : ButtonState :=
    if s1.loc_ButtonCurrentStatus = PIN_IS_HIGH then
      { s1 with loc_TimeCounter := (s1.loc_TimeCounter + 1) % 2 ^ 8 }
    else if s1.loc_ButtonPreviousStatus = PIN_IS_HIGH then
      let s3 : ButtonState :=
        if heldMs s1.loc_TimeCounter ≥ TIME_2000MS ∧ heldMs s1.loc_TimeCounter < TIME_4000MS then
          { s1 with ledTogglStatus := LED_TOGGLE_100MS }
        else if heldMs s1.loc_TimeCounter ≥ TIME_4000MS then
          { s1 with ledTogglStatus := LED_TOGGLE_400MS }
        else
          { s1 with ledTogglStatus := LED_TOGGLE_OFF }
      { s3 with loc_TimeCounter := ZERO_VALUE }
    else
      s1
  ({ s2 with loc_ButtonPreviousStatus := s2.loc_ButtonCurrentStatus },
   [Action.GPIO_read BUTTON_PORT BUTTON_PIN, Action.vTaskDelay BUTTON_SCAN_PERIODICITY])

/-- State after one iteration of `vidBUTTON_Task`. -/
def vidBUTTON_Task_iter (sample : pinState_t) (s : ButtonState) : ButtonState :=
  (vidBUTTON_Task_body sample s).1

/-- State after one iteration per sample, in order. -/
def runButton (samples : List pinState_t) (s : ButtonState) : ButtonState :=
  samples.foldl (fun st sample => vidBUTTON_Task_iter sample st) s

/-- State of `vidBUTTON_Task` and of the global at start-up: `ledTogglStatus` is
initialised to `LED_TOGGLE_OFF` (line 104), `loc_TimeCounter` to `ZERO_VALUE` (line 137);
the two status locals have no initialiser and are left as arguments. -/
def initState (cur prev : pinState_t) : ButtonState :=
  { loc_ButtonCurrentStatus := cur
    loc_ButtonPreviousStatus := prev
    loc_TimeCounter := ZERO_VALUE
    ledTogglStatus := LED_TOGGLE_OFF }

/-- One iteration of the loop of `vidLED_Task` over the variables of the program: the
loop body (lines 111-128) reads `ledTogglStatus` in the `switch` and assigns nothing, so
the variables are handed back as they were received. -/
def vidLED_Task_body (s : ButtonState) : ButtonState × List Action :=
  (s, vidLED_Task_iter s.ledTogglStatus)

/-- Number of `GPIO_write` calls in a sequence of actions. -/
def countWrites : List Action → Nat
  | [] => 0
  | Action.GPIO_write _ _ _ :: as => countWrites as + 1
  | _ :: as => countWrites as

/-- Number of `GPIO_read` calls in a sequence of actions. -/
def countReads : List Action → Nat
  | [] => 0
  | Action.GPIO_read _ _ :: as => countReads as + 1
  | _ :: as => countReads as

/-- The durations of the `vTaskDelay` calls of a sequence of actions, in order. -/
def delaysOf : List Action → List Nat
  | [] => []
  | Action.vTaskDelay d :: as => d :: delaysOf as
  | _ :: as => delaysOf as

/-- The classification of a held time in milliseconds as the specification words it
(section 4.1): `[2000, 4000)` is the fast blink, `4000` and more the slow blink, anything
else off. Written from the specification, to be compared with `vidBUTTON_Task_body`. -/
def specClassify (ms : Nat) : ledToggleStatus_t :=
  if 2000 ≤ ms ∧ ms < 4000 then LED_TOGGLE_100MS
  else if 4000 ≤ ms then LED_TOGGLE_400MS
  else LED_TOGGLE_OFF

/-! ## The three blink tasks of `Task_2/Starter_Files_V0/source/main.c` -/

def LED100MS_PORT : portX_t := portX_t.PORT_0
def LED100MS_PIN : pinX_t := pinX_t.PIN0
def LED500MS_PORT : portX_t := portX_t.PORT_0
def LED500MS_PIN : pinX_t := pinX_t.PIN1
def LED1000MS_PORT : portX_t := portX_t.PORT_0
def LED1000MS_PIN : pinX_t := pinX_t.PIN2

/-- One iteration of the loop of `vidLED100MS_Task` (Task_2 lines 97-106). -/
def vidLED100MS_Task_iter : List Action :=
  [Action.GPIO_write LED100MS_PORT LED100MS_PIN PIN_IS_HIGH, Action.vTaskDelay 100,
   Action.GPIO_write LED100MS_PORT LED100MS_PIN PIN_IS_LOW, Action.vTaskDelay 100]

/-- One iteration of the loop of `vidLED500MS_Task` (Task_2 lines 109-118). -/
def vidLED500MS_Task_iter : List Action :=
  [Action.GPIO_write LED500MS_PORT LED500MS_PIN PIN_IS_HIGH, Action.vTaskDelay 500,
   Action.GPIO_write LED500MS_PORT LED500MS_PIN PIN_IS_LOW, Action.vTaskDelay 500]

/-- One iteration of the loop of `vidLED1000MS_Task` (Task_2 lines 121-130): both calls
are `vTaskDelay(500)` in the source. -/
def vidLED1000MS_Task_iter : List Action :=
  [Action.GPIO_write LED1000MS_PORT LED1000MS_PIN PIN_IS_HIGH, Action.vTaskDelay 500,
   Action.GPIO_write LED1000MS_PORT LED1000MS_PIN PIN_IS_LOW, Action.vTaskDelay 500]

/-! ## Lemmas on `vidBUTTON_Task` -/

theorem iter_high (s : ButtonState) :
    vidBUTTON_Task_iter PIN_IS_HIGH s =
      { loc_ButtonCurrentStatus := PIN_IS_HIGH
        loc_ButtonPreviousStatus := PIN_IS_HIGH
        loc_TimeCounter := (s.loc_TimeCounter + 1) % 256
        ledTogglStatus := s.ledTogglStatus } := by
  simp [vidBUTTON_Task_iter, vidBUTTON_Task_body]

theorem iter_low_low (s : ButtonState) (h : s.loc_ButtonPreviousStatus = PIN_IS_LOW) :
    vidBUTTON_Task_iter PIN_IS_LOW s =
      { loc_ButtonCurrentStatus := PIN_IS_LOW
        loc_ButtonPreviousStatus := PIN_IS_LOW
        loc_TimeCounter := s.loc_TimeCounter
        ledTogglStatus := s.ledTogglStatus } := by
  simp [vidBUTTON_Task_iter, vidBUTTON_Task_body, h]

theorem heldMs_eq (t : Nat) (h : t < 256) : heldMs t = t * 100 := by
  unfold heldMs uintMul UINT_BITS BUTTON_SCAN_PERIODICITY
  apply Nat.mod_eq_of_lt
  omega

theorem iter_low_high (s : ButtonState) (h : s.loc_ButtonPreviousStatus = PIN_IS_HIGH) :
    vidBUTTON_Task_iter PIN_IS_LOW s =
      { loc_ButtonCurrentStatus := PIN_IS_LOW
        loc_ButtonPreviousStatus := PIN_IS_LOW
        loc_TimeCounter := 0
        ledTogglStatus :=
          if heldMs s.loc_TimeCounter ≥ 2000 ∧ heldMs s.loc_TimeCounter < 4000 then
            LED_TOGGLE_100MS
          else if heldMs s.loc_TimeCounter ≥ 4000 then LED_TOGGLE_400MS
          else LED_TOGGLE_OFF } := by
  simp only [vidBUTTON_Task_iter, vidBUTTON_Task_body, h, TIME_2000MS, TIME_4000MS, ZERO_VALUE]
  split_ifs <;> simp_all

theorem runButton_nil (s : ButtonState) : runButton [] s = s := rfl

theorem runButton_cons (x : pinState_t) (xs : List pinState_t) (s : ButtonState) :
    runButton (x :: xs) s = runButton xs (vidBUTTON_Task_iter x s) := rfl

theorem runButton_append (xs ys : List pinState_t) (s : ButtonState) :
    runButton (xs ++ ys) s = runButton ys (runButton xs s) := by
  simp [runButton, List.foldl_append]

/-- After `n + 1` asserted samples both status locals are `PIN_IS_HIGH`, the counter has
advanced by `n + 1` modulo `2 ^ 8` and the mode is as before. -/
theorem runButton_high (n : Nat) (s : ButtonState) :
    runButton (List.replicate (n + 1) PIN_IS_HIGH) s =
      { loc_ButtonCurrentStatus := PIN_IS_HIGH
        loc_ButtonPreviousStatus := PIN_IS_HIGH
        loc_TimeCounter := (s.loc_TimeCounter + (n + 1)) % 256
        ledTogglStatus := s.ledTogglStatus } := by
  induction n generalizing s with
  | zero => simp [List.replicate, runButton_cons, runButton_nil, iter_high]
  | succ k ih =>
    rw [List.replicate_succ, runButton_cons, ih, iter_high]
    simp only [ButtonState.mk.injEq, true_and, and_true]
    omega

/-- Asserted samples never write the mode. -/
theorem runButton_high_mode (n : Nat) (s : ButtonState) :
    (runButton (List.replicate n PIN_IS_HIGH) s).ledTogglStatus = s.ledTogglStatus := by
  cases n with
  | zero => rfl
  | succ k => rw [runButton_high]

/-- Unasserted samples after an unasserted one change nothing. -/
theorem runButton_low_of_low (k : Nat) (s : ButtonState)
    (hc : s.loc_ButtonCurrentStatus = PIN_IS_LOW) (hp : s.loc_ButtonPreviousStatus = PIN_IS_LOW) :
    runButton (List.replicate k PIN_IS_LOW) s = s := by
  induction k with
  | zero => rfl
  | succ j ih =>
    rw [List.replicate_succ, runButton_cons, iter_low_low s hp]
    have hs : ({ loc_ButtonCurrentStatus := PIN_IS_LOW
                 loc_ButtonPreviousStatus := PIN_IS_LOW
                 loc_TimeCounter := s.loc_TimeCounter
                 ledTogglStatus := s.ledTogglStatus } : ButtonState) = s := by
      cases s
      simp_all
    rw [hs]
    exact ih

/-- After one unasserted sample both status locals are `PIN_IS_LOW`. -/
theorem iter_low_status (s : ButtonState) :
    (vidBUTTON_Task_iter PIN_IS_LOW s).loc_ButtonCurrentStatus = PIN_IS_LOW ∧
      (vidBUTTON_Task_iter PIN_IS_LOW s).loc_ButtonPreviousStatus = PIN_IS_LOW := by
  cases hp : s.loc_ButtonPreviousStatus with
  | PIN_IS_LOW => rw [iter_low_low s hp]; exact ⟨rfl, rfl⟩
  | PIN_IS_HIGH => rw [iter_low_high s hp]; exact ⟨rfl, rfl⟩

/-- A press of `n + 1` samples from a released state with a zero counter, then a release:
the state reached, with the counter reduced modulo `2 ^ 8` before it is classified. -/
theorem runButton_press (n : Nat) (s : ButtonState) (hp : s.loc_TimeCounter = 0) :
    runButton (List.replicate (n + 1) PIN_IS_HIGH ++ [PIN_IS_LOW]) s =
      { loc_ButtonCurrentStatus := PIN_IS_LOW
        loc_ButtonPreviousStatus := PIN_IS_LOW
        loc_TimeCounter := 0
        ledTogglStatus :=
          if heldMs ((n + 1) % 256) ≥ 2000 ∧ heldMs ((n + 1) % 256) < 4000 then
            LED_TOGGLE_100MS
          else if heldMs ((n + 1) % 256) ≥ 4000 then LED_TOGGLE_400MS
          else LED_TOGGLE_OFF } := by
  rw [runButton_append, runButton_high, runButton_cons, runButton_nil, iter_low_high _ rfl]
  simp [hp]

/-! ## The release edge -/

/-- C1: release-edge classification. From any state whose previous level is asserted and
whose counter `t` is an 8-bit value, one iteration that reads an unasserted sample sets the
mode to `LED_TOGGLE_100MS` exactly when `2000 ≤ t * 100 < 4000`, to `LED_TOGGLE_400MS`
exactly when `t * 100 ≥ 4000`, to `LED_TOGGLE_OFF` exactly when neither holds, and resets
the counter to 0; so `t = 20` gives the fast blink, `t = 40` the slow blink, `t = 0` off. -/
theorem release_edge_classification (s : ButtonState)
    (hprev : s.loc_ButtonPreviousStatus = PIN_IS_HIGH) (ht : s.loc_TimeCounter < 256) :
    ((vidBUTTON_Task_iter PIN_IS_LOW s).ledTogglStatus = LED_TOGGLE_100MS ↔
        2000 ≤ s.loc_TimeCounter * 100 ∧ s.loc_TimeCounter * 100 < 4000) ∧
    ((vidBUTTON_Task_iter PIN_IS_LOW s).ledTogglStatus = LED_TOGGLE_400MS ↔
        4000 ≤ s.loc_TimeCounter * 100) ∧
    ((vidBUTTON_Task_iter PIN_IS_LOW s).ledTogglStatus = LED_TOGGLE_OFF ↔
        ¬ (2000 ≤ s.loc_TimeCounter * 100 ∧ s.loc_TimeCounter * 100 < 4000) ∧
        ¬ 4000 ≤ s.loc_TimeCounter * 100) ∧
    (vidBUTTON_Task_iter PIN_IS_LOW s).loc_TimeCounter = 0 ∧
    (s.loc_TimeCounter = 20 → (vidBUTTON_Task_iter PIN_IS_LOW s).ledTogglStatus = LED_TOGGLE_100MS) ∧
    (s.loc_TimeCounter = 40 → (vidBUTTON_Task_iter PIN_IS_LOW s).ledTogglStatus = LED_TOGGLE_400MS) ∧
    (s.loc_TimeCounter = 0 → (vidBUTTON_Task_iter PIN_IS_LOW s).ledTogglStatus = LED_TOGGLE_OFF) := by
  rw [iter_low_high s hprev, heldMs_eq _ ht]
  simp only
  refine ⟨?_, ?_, ?_, trivial, ?_, ?_, ?_⟩
  · split_ifs <;> simp <;> omega
  · split_ifs <;> simp <;> omega
  · split_ifs <;> simp <;> omega
  · intro h; rw [h]; decide
  · intro h; rw [h]; decide
  · intro h; rw [h]; decide

/-- Witness of C1 at `t = 20`, previous level asserted, mode `LED_TOGGLE_400MS`. -/
theorem release_edge_classification_witness :
    (vidBUTTON_Task_iter PIN_IS_LOW
        ⟨PIN_IS_HIGH, PIN_IS_HIGH, 20, LED_TOGGLE_400MS⟩).ledTogglStatus = LED_TOGGLE_100MS ∧
    (vidBUTTON_Task_iter PIN_IS_LOW
        ⟨PIN_IS_HIGH, PIN_IS_HIGH, 20, LED_TOGGLE_400MS⟩).loc_TimeCounter = 0 :=
  have h := release_edge_classification ⟨PIN_IS_HIGH, PIN_IS_HIGH, 20, LED_TOGGLE_400MS⟩
    rfl (by decide)
  ⟨h.2.2.2.2.1 rfl, h.2.2.2.1⟩

/-! ## Presses of a given length -/

/-- Presses of 40 to 255 samples are classified as long: the counter has not wrapped. -/
theorem long_press_below_wrap (s : ButtonState) (n : Nat) (ht : s.loc_TimeCounter = 0)
    (h1 : 40 ≤ n) (h2 : n ≤ 255) :
    (runButton (List.replicate n PIN_IS_HIGH ++ [PIN_IS_LOW]) s).ledTogglStatus
      = LED_TOGGLE_400MS := by
  obtain ⟨m, rfl⟩ : ∃ m, n = m + 1 := ⟨n - 1, by omega⟩
  rw [runButton_press m s ht, Nat.mod_eq_of_lt (by omega), heldMs_eq _ (by omega)]
  simp only
  split_ifs <;> first | rfl | omega

/-- C2, at the input where it fails: released, counter 0, mode `LED_TOGGLE_100MS`, then 256
asserted samples (a press of 25.6 s) and one unasserted sample. The 8-bit counter is back
at 0 when the release is classified, and the mode written is `LED_TOGGLE_OFF`, not
`LED_TOGGLE_400MS`. -/
theorem long_press_256_gives_off :
    (runButton (List.replicate 256 PIN_IS_HIGH)
        ⟨PIN_IS_LOW, PIN_IS_LOW, 0, LED_TOGGLE_100MS⟩).loc_TimeCounter = 0 ∧
    (runButton (List.replicate 256 PIN_IS_HIGH ++ [PIN_IS_LOW])
        ⟨PIN_IS_LOW, PIN_IS_LOW, 0, LED_TOGGLE_100MS⟩).ledTogglStatus = LED_TOGGLE_OFF ∧
    (runButton (List.replicate 256 PIN_IS_HIGH ++ [PIN_IS_LOW])
        ⟨PIN_IS_LOW, PIN_IS_LOW, 0, LED_TOGGLE_100MS⟩).ledTogglStatus ≠ LED_TOGGLE_400MS := by
  rw [runButton_press 255 _ rfl, runButton_high 255]
  simp [heldMs, uintMul]

/-- C3: a medium press gives the fast blink. From any state with the previous level
unasserted and the counter at 0, whatever the mode, `n` asserted samples with
`2000 ≤ n * 100 < 4000` followed by one unasserted sample leave the mode at
`LED_TOGGLE_100MS` and the counter at 0. -/
theorem medium_press_gives_blink_fast (s : ButtonState) (n : Nat)
    (_hprev : s.loc_ButtonPreviousStatus = PIN_IS_LOW) (ht : s.loc_TimeCounter = 0)
    (h1 : 2000 ≤ n * 100) (h2 : n * 100 < 4000) :
    (runButton (List.replicate n PIN_IS_HIGH ++ [PIN_IS_LOW]) s).ledTogglStatus
      = LED_TOGGLE_100MS ∧
    (runButton (List.replicate n PIN_IS_HIGH ++ [PIN_IS_LOW]) s).loc_TimeCounter = 0 := by
  obtain ⟨m, rfl⟩ : ∃ m, n = m + 1 := ⟨n - 1, by omega⟩
  rw [runButton_press m s ht, Nat.mod_eq_of_lt (by omega), heldMs_eq _ (by omega)]
  simp only [and_true]
  split_ifs <;> first | rfl | omega

/-- Witness of C3 at `n = 20` (held 2000 ms), starting in mode `LED_TOGGLE_400MS`. -/
theorem medium_press_gives_blink_fast_witness :
    (runButton (List.replicate 20 PIN_IS_HIGH ++ [PIN_IS_LOW])
        ⟨PIN_IS_LOW, PIN_IS_LOW, 0, LED_TOGGLE_400MS⟩).ledTogglStatus = LED_TOGGLE_100MS ∧
    (runButton (List.replicate 20 PIN_IS_HIGH ++ [PIN_IS_LOW])
        ⟨PIN_IS_LOW, PIN_IS_LOW, 0, LED_TOGGLE_400MS⟩).loc_TimeCounter = 0 :=
  medium_press_gives_blink_fast ⟨PIN_IS_LOW, PIN_IS_LOW, 0, LED_TOGGLE_400MS⟩ 20
    rfl rfl (by decide) (by decide)

/-- C4: a short press gives off. From any state with the previous level unasserted and
the counter at 0, whatever the mode, `n` asserted samples with `1 ≤ n` and
`n * 100 < 2000` leave the counter at `n`, and one further unasserted sample leaves the
mode at `LED_TOGGLE_OFF` and the counter at 0. -/
theorem short_press_gives_off (s : ButtonState) (n : Nat)
    (_hprev : s.loc_ButtonPreviousStatus = PIN_IS_LOW) (ht : s.loc_TimeCounter = 0)
    (h1 : 1 ≤ n) (h2 : n * 100 < 2000) :
    (runButton (List.replicate n PIN_IS_HIGH) s).loc_TimeCounter = n ∧
    (runButton (List.replicate n PIN_IS_HIGH ++ [PIN_IS_LOW]) s).ledTogglStatus
      = LED_TOGGLE_OFF ∧
    (runButton (List.replicate n PIN_IS_HIGH ++ [PIN_IS_LOW]) s).loc_TimeCounter = 0 := by
  obtain ⟨m, rfl⟩ : ∃ m, n = m + 1 := ⟨n - 1, by omega⟩
  refine ⟨?_, ?_⟩
  · rw [runButton_high m s, ht]
    simp only
    omega
  · rw [runButton_press m s ht, Nat.mod_eq_of_lt (by omega), heldMs_eq _ (by omega)]
    simp only [and_true]
    split_ifs <;> first | rfl | omega

/-- Witness of C4 at `n = 19` (held 1900 ms), starting in mode `LED_TOGGLE_400MS`. -/
theorem short_press_gives_off_witness :
    (runButton (List.replicate 19 PIN_IS_HIGH)
        ⟨PIN_IS_LOW, PIN_IS_LOW, 0, LED_TOGGLE_400MS⟩).loc_TimeCounter = 19 ∧
    (runButton (List.replicate 19 PIN_IS_HIGH ++ [PIN_IS_LOW])
        ⟨PIN_IS_LOW, PIN_IS_LOW, 0, LED_TOGGLE_400MS⟩).ledTogglStatus = LED_TOGGLE_OFF ∧
    (runButton (List.replicate 19 PIN_IS_HIGH ++ [PIN_IS_LOW])
        ⟨PIN_IS_LOW, PIN_IS_LOW, 0, LED_TOGGLE_400MS⟩).loc_TimeCounter = 0 :=
  short_press_gives_off ⟨PIN_IS_LOW, PIN_IS_LOW, 0, LED_TOGGLE_400MS⟩ 19
    rfl rfl (by decide) (by decide)

/-! ## Samples without a release edge -/

/-- One unasserted sample followed by `k` more is one unasserted sample. -/
theorem runButton_low_succ (k : Nat) (s : ButtonState) :
    runButton (List.replicate (k + 1) PIN_IS_LOW) s = vidBUTTON_Task_iter PIN_IS_LOW s := by
  rw [List.replicate_succ, runButton_cons]
  exact runButton_low_of_low k _ (iter_low_status s).1 (iter_low_status s).2

/-- C5: no edge, no mode change. From every state, one iteration that reads an asserted
sample leaves the mode unchanged; one iteration that reads an unasserted sample while the
previous level is unasserted leaves the mode and the counter unchanged; and after any
iteration the previous level is the sample just read. -/
theorem no_edge_no_mode_change (s : ButtonState) :
    (vidBUTTON_Task_iter PIN_IS_HIGH s).ledTogglStatus = s.ledTogglStatus ∧
    (s.loc_ButtonPreviousStatus = PIN_IS_LOW →
      (vidBUTTON_Task_iter PIN_IS_LOW s).ledTogglStatus = s.ledTogglStatus ∧
      (vidBUTTON_Task_iter PIN_IS_LOW s).loc_TimeCounter = s.loc_TimeCounter) ∧
    (∀ sample : pinState_t,
      (vidBUTTON_Task_iter sample s).loc_ButtonPreviousStatus = sample) := by
  refine ⟨?_, ?_, ?_⟩
  · rw [iter_high]
  · intro h
    rw [iter_low_low s h]
    exact ⟨rfl, rfl⟩
  · intro sample
    cases sample with
    | PIN_IS_LOW => exact (iter_low_status s).2
    | PIN_IS_HIGH => rw [iter_high]

/-- Witness of C5: a released state in mode `LED_TOGGLE_100MS` with a non-zero counter
keeps its mode and counter over an unasserted sample. -/
theorem no_edge_no_mode_change_witness :
    (vidBUTTON_Task_iter PIN_IS_LOW
        ⟨PIN_IS_LOW, PIN_IS_LOW, 7, LED_TOGGLE_100MS⟩).ledTogglStatus = LED_TOGGLE_100MS ∧
    (vidBUTTON_Task_iter PIN_IS_LOW
        ⟨PIN_IS_LOW, PIN_IS_LOW, 7, LED_TOGGLE_100MS⟩).loc_TimeCounter = 7 :=
  (no_edge_no_mode_change ⟨PIN_IS_LOW, PIN_IS_LOW, 7, LED_TOGGLE_100MS⟩).2.1 rfl

/-- C6: repeated samples. For every state `s` and every `k ≥ 1`, `k` consecutive
unasserted samples from `s` give the mode, counter and previous level that a single
unasserted sample gives (the whole state is the same), and `k` consecutive asserted
samples give the mode of `s`. -/
theorem repeated_samples_idempotent (s : ButtonState) (k : Nat) (hk : 1 ≤ k) :
    (runButton (List.replicate k PIN_IS_LOW) s).ledTogglStatus
      = (vidBUTTON_Task_iter PIN_IS_LOW s).ledTogglStatus ∧
    (runButton (List.replicate k PIN_IS_LOW) s).loc_TimeCounter
      = (vidBUTTON_Task_iter PIN_IS_LOW s).loc_TimeCounter ∧
    (runButton (List.replicate k PIN_IS_LOW) s).loc_ButtonPreviousStatus
      = (vidBUTTON_Task_iter PIN_IS_LOW s).loc_ButtonPreviousStatus ∧
    runButton (List.replicate k PIN_IS_LOW) s = vidBUTTON_Task_iter PIN_IS_LOW s ∧
    (runButton (List.replicate k PIN_IS_HIGH) s).ledTogglStatus = s.ledTogglStatus := by
  obtain ⟨j, rfl⟩ : ∃ j, k = j + 1 := ⟨k - 1, by omega⟩
  rw [runButton_low_succ]
  exact ⟨rfl, rfl, rfl, rfl, runButton_high_mode _ s⟩

/-- Witness of C6: five unasserted samples at a release edge after 25 counted samples
write the mode once, as one sample does. -/
theorem repeated_samples_idempotent_witness :
    runButton (List.replicate 5 PIN_IS_LOW) ⟨PIN_IS_HIGH, PIN_IS_HIGH, 25, LED_TOGGLE_OFF⟩
      = vidBUTTON_Task_iter PIN_IS_LOW ⟨PIN_IS_HIGH, PIN_IS_HIGH, 25, LED_TOGGLE_OFF⟩ ∧
    (runButton (List.replicate 5 PIN_IS_HIGH)
        ⟨PIN_IS_HIGH, PIN_IS_HIGH, 25, LED_TOGGLE_OFF⟩).ledTogglStatus = LED_TOGGLE_OFF :=
  have h := repeated_samples_idempotent ⟨PIN_IS_HIGH, PIN_IS_HIGH, 25, LED_TOGGLE_OFF⟩ 5
    (by decide)
  ⟨h.2.2.2.1, h.2.2.2.2⟩

/-! ## Start-up -/

/-- Unasserted samples from the start-up state leave the mode at `LED_TOGGLE_OFF`. -/
theorem runButton_low_init (a : Nat) (cur prev : pinState_t) :
    (runButton (List.replicate a PIN_IS_LOW) (initState cur prev)).ledTogglStatus
      = LED_TOGGLE_OFF := by
  cases a with
  | zero => rfl
  | succ j =>
    rw [runButton_low_succ]
    cases prev with
    | PIN_IS_LOW => rw [iter_low_low _ rfl]; rfl
    | PIN_IS_HIGH =>
      rw [iter_low_high _ rfl]
      simp [initState, ZERO_VALUE, heldMs, uintMul]

/-- Unasserted samples then asserted samples from the start-up state leave the mode at
`LED_TOGGLE_OFF`. -/
theorem runButton_low_high_init (a b : Nat) (cur prev : pinState_t) :
    (runButton (List.replicate a PIN_IS_LOW ++ List.replicate b PIN_IS_HIGH)
        (initState cur prev)).ledTogglStatus = LED_TOGGLE_OFF := by
  rw [runButton_append, runButton_high_mode, runButton_low_init]

/-- C7: the mode starts at `LED_TOGGLE_OFF` and the counter at 0; and from the start-up
state, for either value of each of the two uninitialised status locals, after every
iteration of a sample sequence made of `a` unasserted samples followed by `b` asserted
samples (that is, after its first `k` samples, for every `k`) the mode is still
`LED_TOGGLE_OFF`. -/
theorem initial_mode_off_until_first_release (cur prev : pinState_t) (a b k : Nat) :
    (initState cur prev).ledTogglStatus = LED_TOGGLE_OFF ∧
    (initState cur prev).loc_TimeCounter = 0 ∧
    (runButton ((List.replicate a PIN_IS_LOW ++ List.replicate b PIN_IS_HIGH).take k)
        (initState cur prev)).ledTogglStatus = LED_TOGGLE_OFF := by
  refine ⟨rfl, rfl, ?_⟩
  rw [List.take_append_eq_append_take, List.take_replicate, List.take_replicate]
  exact runButton_low_high_init _ _ cur prev

/-! ## `vidLED_Task` -/

/-- C8: output of one iteration of `vidLED_Task` per mode. `LED_TOGGLE_OFF` writes the LED
pin low; `LED_TOGGLE_100MS` writes high, delays 100, writes low, delays 100;
`LED_TOGGLE_400MS` does the same with 400. Every write is on `PORT_0`, `PIN0`, the LED
port and pin, and the scrutinee of the `switch` matches one of the three labels for every
value of the enumeration. -/
theorem led_actions_per_mode (m : ledToggleStatus_t) :
    vidLED_Task_iter m =
      (match m with
        | LED_TOGGLE_OFF =>
          [Action.GPIO_write portX_t.PORT_0 pinX_t.PIN0 PIN_IS_LOW]
        | LED_TOGGLE_100MS =>
          [Action.GPIO_write portX_t.PORT_0 pinX_t.PIN0 PIN_IS_HIGH, Action.vTaskDelay 100,
           Action.GPIO_write portX_t.PORT_0 pinX_t.PIN0 PIN_IS_LOW, Action.vTaskDelay 100]
        | LED_TOGGLE_400MS =>
          [Action.GPIO_write portX_t.PORT_0 pinX_t.PIN0 PIN_IS_HIGH, Action.vTaskDelay 400,
           Action.GPIO_write portX_t.PORT_0 pinX_t.PIN0 PIN_IS_LOW, Action.vTaskDelay 400]) ∧
    writesOnly LED_PORT LED_PIN (vidLED_Task_iter m) = true ∧
    LED_PORT = portX_t.PORT_0 ∧ LED_PIN = pinX_t.PIN0 ∧
    (m.toNat % 2 ^ 8 = LED_TOGGLE_OFF.toNat ∨ m.toNat % 2 ^ 8 = LED_TOGGLE_100MS.toNat ∨
      m.toNat % 2 ^ 8 = LED_TOGGLE_400MS.toNat) := by
  cases m <;> decide

/-- C9 as stated fails for `LED_TOGGLE_OFF`: that iteration is the single write of the pin
and contains no `vTaskDelay`, so it does not contain two. -/
theorem led_off_iteration_has_no_delay :
    vidLED_Task_iter LED_TOGGLE_OFF = [Action.GPIO_write LED_PORT LED_PIN PIN_IS_LOW] ∧
    countDelays (vidLED_Task_iter LED_TOGGLE_OFF) = 0 ∧
    ¬ countDelays (vidLED_Task_iter LED_TOGGLE_OFF) = 2 := by
  decide

/-- C9, amended: for each of the two blinking modes the iteration of `vidLED_Task` holds
exactly two `vTaskDelay` calls of one duration, one after the high write and one after the
low write; for `LED_TOGGLE_OFF` it holds none. -/
theorem led_delays_per_mode (m : ledToggleStatus_t) :
    (m ≠ LED_TOGGLE_OFF →
      countDelays (vidLED_Task_iter m) = 2 ∧
      ∃ d : Nat, vidLED_Task_iter m =
        [Action.GPIO_write LED_PORT LED_PIN PIN_IS_HIGH, Action.vTaskDelay d,
         Action.GPIO_write LED_PORT LED_PIN PIN_IS_LOW, Action.vTaskDelay d]) ∧
    (m = LED_TOGGLE_OFF → countDelays (vidLED_Task_iter m) = 0) := by
  cases m with
  | LED_TOGGLE_100MS => exact ⟨fun _ => ⟨by decide, 100, by decide⟩, fun h => by cases h⟩
  | LED_TOGGLE_400MS => exact ⟨fun _ => ⟨by decide, 400, by decide⟩, fun h => by cases h⟩
  | LED_TOGGLE_OFF => exact ⟨fun h => absurd rfl h, fun _ => by decide⟩

/-- Witness of the amended C9 at `LED_TOGGLE_400MS`. -/
theorem led_delays_per_mode_witness :
    countDelays (vidLED_Task_iter LED_TOGGLE_400MS) = 2 ∧
    ∃ d : Nat, vidLED_Task_iter LED_TOGGLE_400MS =
      [Action.GPIO_write LED_PORT LED_PIN PIN_IS_HIGH, Action.vTaskDelay d,
       Action.GPIO_write LED_PORT LED_PIN PIN_IS_LOW, Action.vTaskDelay d] :=
  (led_delays_per_mode LED_TOGGLE_400MS).1 (by decide)

/-! ### The step machine -/

theorem ledRun_cons (pc : LedPc) (m : ledToggleStatus_t) (ms : List ledToggleStatus_t) :
    ledRun pc (m :: ms) =
      ((ledStep m pc).1 ++ (ledRun (ledStep m pc).2 ms).1, (ledRun (ledStep m pc).2 ms).2) :=
  rfl

/-- An iteration begun with the `switch` reading `LED_TOGGLE_100MS` runs its four
statements whatever the mode is at the last three. -/
theorem ledRun_fast_cycle (m1 m2 m3 : ledToggleStatus_t) (rest : List ledToggleStatus_t) :
    ledRun LedPc.atSwitch (LED_TOGGLE_100MS :: m1 :: m2 :: m3 :: rest) =
      (vidLED_Task_iter LED_TOGGLE_100MS ++ (ledRun LedPc.atSwitch rest).1,
       (ledRun LedPc.atSwitch rest).2) := by
  simp [ledRun_cons, ledStep, ledToggleStatus_t.toNat, vidLED_Task_iter, ledSwitch]

/-- An iteration begun with the `switch` reading `LED_TOGGLE_400MS` runs its four
statements whatever the mode is at the last three. -/
theorem ledRun_slow_cycle (m1 m2 m3 : ledToggleStatus_t) (rest : List ledToggleStatus_t) :
    ledRun LedPc.atSwitch (LED_TOGGLE_400MS :: m1 :: m2 :: m3 :: rest) =
      (vidLED_Task_iter LED_TOGGLE_400MS ++ (ledRun LedPc.atSwitch rest).1,
       (ledRun LedPc.atSwitch rest).2) := by
  simp [ledRun_cons, ledStep, ledToggleStatus_t.toNat, vidLED_Task_iter, ledSwitch]

/-- With the mode held at `LED_TOGGLE_100MS` for `4 * k` statements the machine emits `k`
fast cycles and is back at the `switch`. -/
theorem ledRun_fast_repeat (k : Nat) :
    ledRun LedPc.atSwitch (List.replicate (4 * k) LED_TOGGLE_100MS) =
      (repeatCycle k (vidLED_Task_iter LED_TOGGLE_100MS), LedPc.atSwitch) := by
  induction k with
  | zero => rfl
  | succ j ih =>
    have h4 : 4 * (j + 1) = 4 * j + 1 + 1 + 1 + 1 := by omega
    rw [h4, List.replicate_succ, List.replicate_succ, List.replicate_succ,
      List.replicate_succ, ledRun_fast_cycle, ih]
    rfl

/-- C10: a mode change is honoured only at a full-cycle boundary. In the step machine of
`vidLED_Task` only the `switch` reads the mode. Once it has read `LED_TOGGLE_100MS` (or
`LED_TOGGLE_400MS`) and written the pin high, the three remaining statements emit
delay 100, write low, delay 100 (or the same with 400) and return to the `switch`,
whatever modes `m1 m2 m3` are in the shared variable meanwhile; the actions that follow are
those of a run from the `switch` on the later modes `rest`; run statement by statement
under a constant mode, one iteration is `vidLED_Task_iter`; and with the mode held at
`LED_TOGGLE_100MS` for `k` iterations the trace is `k` repetitions of
high, delay 100, low, delay 100. -/
theorem mode_change_honoured_at_cycle_boundary
    (m1 m2 m3 : ledToggleStatus_t) (rest : List ledToggleStatus_t) (k : Nat) :
    ledStep LED_TOGGLE_100MS LedPc.atSwitch =
      ([Action.GPIO_write LED_PORT LED_PIN PIN_IS_HIGH], LedPc.c100_delayHigh) ∧
    ledRun LedPc.c100_delayHigh [m1, m2, m3] =
      ([Action.vTaskDelay 100, Action.GPIO_write LED_PORT LED_PIN PIN_IS_LOW,
        Action.vTaskDelay 100], LedPc.atSwitch) ∧
    ledStep LED_TOGGLE_400MS LedPc.atSwitch =
      ([Action.GPIO_write LED_PORT LED_PIN PIN_IS_HIGH], LedPc.c400_delayHigh) ∧
    ledRun LedPc.c400_delayHigh [m1, m2, m3] =
      ([Action.vTaskDelay 400, Action.GPIO_write LED_PORT LED_PIN PIN_IS_LOW,
        Action.vTaskDelay 400], LedPc.atSwitch) ∧
    ledRun LedPc.atSwitch (LED_TOGGLE_100MS :: m1 :: m2 :: m3 :: rest) =
      ([Action.GPIO_write LED_PORT LED_PIN PIN_IS_HIGH, Action.vTaskDelay 100,
        Action.GPIO_write LED_PORT LED_PIN PIN_IS_LOW, Action.vTaskDelay 100]
          ++ (ledRun LedPc.atSwitch rest).1, (ledRun LedPc.atSwitch rest).2) ∧
    ledRun LedPc.atSwitch (LED_TOGGLE_400MS :: m1 :: m2 :: m3 :: rest) =
      ([Action.GPIO_write LED_PORT LED_PIN PIN_IS_HIGH, Action.vTaskDelay 400,
        Action.GPIO_write LED_PORT LED_PIN PIN_IS_LOW, Action.vTaskDelay 400]
          ++ (ledRun LedPc.atSwitch rest).1, (ledRun LedPc.atSwitch rest).2) ∧
    ledRun LedPc.atSwitch [LED_TOGGLE_OFF] = (vidLED_Task_iter LED_TOGGLE_OFF, LedPc.atSwitch) ∧
    ledRun LedPc.atSwitch (List.replicate 4 LED_TOGGLE_100MS) =
      (vidLED_Task_iter LED_TOGGLE_100MS, LedPc.atSwitch) ∧
    ledRun LedPc.atSwitch (List.replicate 4 LED_TOGGLE_400MS) =
      (vidLED_Task_iter LED_TOGGLE_400MS, LedPc.atSwitch) ∧
    ledRun LedPc.atSwitch (List.replicate (4 * k) LED_TOGGLE_100MS) =
      (repeatCycle k
        [Action.GPIO_write LED_PORT LED_PIN PIN_IS_HIGH, Action.vTaskDelay 100,
         Action.GPIO_write LED_PORT LED_PIN PIN_IS_LOW, Action.vTaskDelay 100],
       LedPc.atSwitch) := by
  refine ⟨by decide, ?_, by decide, ?_, ?_, ?_, by decide, by decide, by decide, ?_⟩
  · simp [ledRun_cons, ledStep, ledRun]
  · simp [ledRun_cons, ledStep, ledRun]
  · rw [ledRun_fast_cycle]; rfl
  · rw [ledRun_slow_cycle]; rfl
  · rw [ledRun_fast_repeat]; rfl

/-! ## Data flow between the two tasks -/

/-- C11: one-way data flow. For every state, one iteration of `vidLED_Task` leaves
`ledTogglStatus` and the three locals of `vidBUTTON_Task` as they were and emits the
actions selected by the mode; and one iteration of `vidBUTTON_Task`, whatever the sample
and the state (so on every branch), emits exactly one `GPIO_read` of the button pin
followed by one `vTaskDelay` of `BUTTON_SCAN_PERIODICITY = 100`, and no `GPIO_write`. -/
theorem one_way_data_flow (s : ButtonState) (sample : pinState_t) :
    (vidLED_Task_body s).1.ledTogglStatus = s.ledTogglStatus ∧
    (vidLED_Task_body s).1.loc_ButtonCurrentStatus = s.loc_ButtonCurrentStatus ∧
    (vidLED_Task_body s).1.loc_ButtonPreviousStatus = s.loc_ButtonPreviousStatus ∧
    (vidLED_Task_body s).1.loc_TimeCounter = s.loc_TimeCounter ∧
    (vidLED_Task_body s).2 = vidLED_Task_iter s.ledTogglStatus ∧
    (vidBUTTON_Task_body sample s).2 =
      [Action.GPIO_read portX_t.PORT_0 pinX_t.PIN1, Action.vTaskDelay 100] ∧
    countWrites (vidBUTTON_Task_body sample s).2 = 0 ∧
    countReads (vidBUTTON_Task_body sample s).2 = 1 ∧
    countDelays (vidBUTTON_Task_body sample s).2 = 1 ∧
    BUTTON_SCAN_PERIODICITY = 100 := by
  have h : (vidBUTTON_Task_body sample s).2 =
      [Action.GPIO_read portX_t.PORT_0 pinX_t.PIN1, Action.vTaskDelay 100] := rfl
  rw [h]
  exact ⟨rfl, rfl, rfl, rfl, rfl, rfl, rfl, rfl, rfl, rfl⟩

/-! ## The 8-bit press counter -/

theorem specClassify_heldMs (t : Nat) (ht : t < 256) :
    (if heldMs t ≥ 2000 ∧ heldMs t < 4000 then LED_TOGGLE_100MS
      else if heldMs t ≥ 4000 then LED_TOGGLE_400MS else LED_TOGGLE_OFF)
      = specClassify (t * 100) := by
  rw [heldMs_eq t ht]
  rfl

/-- C12: exact effect of the 8-bit press counter. From any state with the previous level
unasserted and the counter at 0, for every `n ≥ 1`, after `n` asserted samples the counter
is `n mod 256`, and after one further unasserted sample the mode is the classification of
`(n mod 256) * 100` ms. So the mode is the classification of the true held time `n * 100`
whenever `n < 256`; a press of 256 samples gives off and one of 276 samples gives the fast
blink. -/
theorem press_counter_mod_256 (s : ButtonState) (n : Nat)
    (_hprev : s.loc_ButtonPreviousStatus = PIN_IS_LOW) (ht : s.loc_TimeCounter = 0)
    (hn : 1 ≤ n) :
    (runButton (List.replicate n PIN_IS_HIGH) s).loc_TimeCounter = n % 256 ∧
    (runButton (List.replicate n PIN_IS_HIGH ++ [PIN_IS_LOW]) s).ledTogglStatus
      = specClassify ((n % 256) * 100) ∧
    (n < 256 →
      (runButton (List.replicate n PIN_IS_HIGH ++ [PIN_IS_LOW]) s).ledTogglStatus
        = specClassify (n * 100)) ∧
    (n = 256 →
      (runButton (List.replicate n PIN_IS_HIGH ++ [PIN_IS_LOW]) s).ledTogglStatus
        = LED_TOGGLE_OFF) ∧
    (n = 276 →
      (runButton (List.replicate n PIN_IS_HIGH ++ [PIN_IS_LOW]) s).ledTogglStatus
        = LED_TOGGLE_100MS) := by
  obtain ⟨m, rfl⟩ : ∃ m, n = m + 1 := ⟨n - 1, by omega⟩
  have hmode : (runButton (List.replicate (m + 1) PIN_IS_HIGH ++ [PIN_IS_LOW]) s).ledTogglStatus
      = specClassify (((m + 1) % 256) * 100) := by
    rw [runButton_press m s ht]
    exact specClassify_heldMs _ (Nat.mod_lt _ (by decide))
  refine ⟨?_, hmode, ?_, ?_, ?_⟩
  · rw [runButton_high m s, ht]
    simp
  · intro hlt
    rw [hmode, Nat.mod_eq_of_lt hlt]
  · intro h
    rw [hmode, h]
    decide
  · intro h
    rw [hmode, h]
    decide

/-- Witness of C12 at `n = 276`: the counter reads 20 and the release gives the fast
blink. -/
theorem press_counter_mod_256_witness :
    (runButton (List.replicate 276 PIN_IS_HIGH)
        ⟨PIN_IS_LOW, PIN_IS_LOW, 0, LED_TOGGLE_OFF⟩).loc_TimeCounter = 276 % 256 ∧
    (runButton (List.replicate 276 PIN_IS_HIGH ++ [PIN_IS_LOW])
        ⟨PIN_IS_LOW, PIN_IS_LOW, 0, LED_TOGGLE_OFF⟩).ledTogglStatus = LED_TOGGLE_100MS :=
  have h := press_counter_mod_256 ⟨PIN_IS_LOW, PIN_IS_LOW, 0, LED_TOGGLE_OFF⟩ 276
    rfl rfl (by decide)
  ⟨h.1, h.2.2.2.2 rfl⟩

/-- C13: history independence. For two states that both have the previous level
unasserted and the counter at 0, with any modes, and for every `n ≥ 1`, `n` asserted
samples followed by one unasserted sample give the same mode, the same counter, which is
0, and the same previous level; the two states reached are equal. -/
theorem press_result_history_independent (s1 s2 : ButtonState) (n : Nat)
    (_hp1 : s1.loc_ButtonPreviousStatus = PIN_IS_LOW) (ht1 : s1.loc_TimeCounter = 0)
    (_hp2 : s2.loc_ButtonPreviousStatus = PIN_IS_LOW) (ht2 : s2.loc_TimeCounter = 0)
    (hn : 1 ≤ n) :
    (runButton (List.replicate n PIN_IS_HIGH ++ [PIN_IS_LOW]) s1).ledTogglStatus
      = (runButton (List.replicate n PIN_IS_HIGH ++ [PIN_IS_LOW]) s2).ledTogglStatus ∧
    (runButton (List.replicate n PIN_IS_HIGH ++ [PIN_IS_LOW]) s1).loc_TimeCounter = 0 ∧
    (runButton (List.replicate n PIN_IS_HIGH ++ [PIN_IS_LOW]) s2).loc_TimeCounter = 0 ∧
    (runButton (List.replicate n PIN_IS_HIGH ++ [PIN_IS_LOW]) s1).loc_ButtonPreviousStatus
      = (runButton (List.replicate n PIN_IS_HIGH ++ [PIN_IS_LOW]) s2).loc_ButtonPreviousStatus ∧
    runButton (List.replicate n PIN_IS_HIGH ++ [PIN_IS_LOW]) s1
      = runButton (List.replicate n PIN_IS_HIGH ++ [PIN_IS_LOW]) s2 := by
  obtain ⟨m, rfl⟩ : ∃ m, n = m + 1 := ⟨n - 1, by omega⟩
  rw [runButton_press m s1 ht1, runButton_press m s2 ht2]
  exact ⟨rfl, rfl, rfl, rfl, rfl⟩

/-- Witness of C13: a press of 25 samples from mode off and from mode slow blink. -/
theorem press_result_history_independent_witness :
    runButton (List.replicate 25 PIN_IS_HIGH ++ [PIN_IS_LOW])
        ⟨PIN_IS_LOW, PIN_IS_LOW, 0, LED_TOGGLE_OFF⟩
      = runButton (List.replicate 25 PIN_IS_HIGH ++ [PIN_IS_LOW])
        ⟨PIN_IS_HIGH, PIN_IS_LOW, 0, LED_TOGGLE_400MS⟩ :=
  (press_result_history_independent ⟨PIN_IS_LOW, PIN_IS_LOW, 0, LED_TOGGLE_OFF⟩
    ⟨PIN_IS_HIGH, PIN_IS_LOW, 0, LED_TOGGLE_400MS⟩ 25 rfl rfl rfl rfl (by decide)).2.2.2.2

/-! ## Reachable states of `vidBUTTON_Task` -/

theorem runButton_snoc (xs : List pinState_t) (x : pinState_t) (s : ButtonState) :
    runButton (xs ++ [x]) s = vidBUTTON_Task_iter x (runButton xs s) := by
  rw [runButton_append]
  rfl

/-- From a state with a zero counter, after any samples: a released state has a zero
counter, and a non-zero counter means the last sample read was asserted. -/
theorem runButton_invariant (samples : List pinState_t) (s0 : ButtonState)
    (h0 : s0.loc_TimeCounter = 0) :
    ((runButton samples s0).loc_ButtonPreviousStatus = PIN_IS_LOW →
        (runButton samples s0).loc_TimeCounter = 0) ∧
    ((runButton samples s0).loc_TimeCounter ≠ 0 →
        (runButton samples s0).loc_ButtonCurrentStatus = PIN_IS_HIGH ∧
        samples.getLast? = some PIN_IS_HIGH) := by
  induction samples using List.reverseRecOn with
  | nil => exact ⟨fun _ => h0, fun h => absurd h0 h⟩
  | append_singleton xs x ih =>
    rw [runButton_snoc]
    cases x with
    | PIN_IS_HIGH =>
      rw [iter_high]
      refine ⟨fun h => ?_, fun _ => ⟨rfl, by simp⟩⟩
      cases h
    | PIN_IS_LOW =>
      cases hp : (runButton xs s0).loc_ButtonPreviousStatus with
      | PIN_IS_LOW =>
        rw [iter_low_low _ hp]
        exact ⟨fun _ => ih.1 hp, fun h => absurd (ih.1 hp) h⟩
      | PIN_IS_HIGH =>
        rw [iter_low_high _ hp]
        exact ⟨fun _ => rfl, fun h => absurd rfl h⟩

/-- C14: reachable-state invariant of `vidBUTTON_Task`. In every state reached at an
iteration boundary from a start state with the counter at 0 and the previous level
unasserted, by any finite sequence of samples: if the previous level is unasserted the
counter is 0; so a press that starts there counts from zero (its first asserted sample
leaves the counter at 1), and the counter is non-zero only when the most recent sample,
kept in the current-level local, was asserted. -/
theorem reachable_released_counter_zero (samples : List pinState_t) (s0 : ButtonState)
    (_hprev : s0.loc_ButtonPreviousStatus = PIN_IS_LOW) (h0 : s0.loc_TimeCounter = 0) :
    ((runButton samples s0).loc_ButtonPreviousStatus = PIN_IS_LOW →
        (runButton samples s0).loc_TimeCounter = 0) ∧
    ((runButton samples s0).loc_ButtonPreviousStatus = PIN_IS_LOW →
        (vidBUTTON_Task_iter PIN_IS_HIGH (runButton samples s0)).loc_TimeCounter = 1) ∧
    ((runButton samples s0).loc_TimeCounter ≠ 0 →
        (runButton samples s0).loc_ButtonCurrentStatus = PIN_IS_HIGH ∧
        samples.getLast? = some PIN_IS_HIGH) := by
  have hinv := runButton_invariant samples s0 h0
  refine ⟨hinv.1, fun h => ?_, hinv.2⟩
  rw [iter_high, hinv.1 h]

/-- Witness of C14: two asserted samples then a release, from start-up with the previous
level unasserted. -/
theorem reachable_released_counter_zero_witness :
    (runButton [PIN_IS_HIGH, PIN_IS_HIGH, PIN_IS_LOW]
        (initState PIN_IS_LOW PIN_IS_LOW)).loc_TimeCounter = 0 ∧
    (vidBUTTON_Task_iter PIN_IS_HIGH (runButton [PIN_IS_HIGH, PIN_IS_HIGH, PIN_IS_LOW]
        (initState PIN_IS_LOW PIN_IS_LOW))).loc_TimeCounter = 1 :=
  have h := reachable_released_counter_zero [PIN_IS_HIGH, PIN_IS_HIGH, PIN_IS_LOW]
    (initState PIN_IS_LOW PIN_IS_LOW) rfl rfl
  ⟨h.1 (by decide), h.2.1 (by decide)⟩

/-! ## The held-time product -/

/-- C15: the held-time product does not overflow. For every 8-bit counter value `t` and
every `unsigned int` width `w` of at least 16 bits, the product computed modulo `2 ^ w`
is `t * 100`, at most 25500; in particular at the width 32 of the target, where the three
comparisons of `vidBUTTON_Task` are therefore comparisons of `t * 100` with 2000 and
4000. -/
theorem held_time_product_exact (t w : Nat) (ht : t < 256) (hw : 16 ≤ w) :
    uintMul w t BUTTON_SCAN_PERIODICITY = t * 100 ∧
    t * 100 ≤ 25500 ∧
    UINT_BITS = 32 ∧
    heldMs t = t * 100 ∧
    (heldMs t ≥ TIME_2000MS ↔ 2000 ≤ t * 100) ∧
    (heldMs t < TIME_4000MS ↔ t * 100 < 4000) ∧
    (heldMs t ≥ TIME_4000MS ↔ 4000 ≤ t * 100) := by
  have hpow : 2 ^ 16 ≤ 2 ^ w := Nat.pow_le_pow_right (by decide) hw
  have h16 : (2 : Nat) ^ 16 = 65536 := by norm_num
  refine ⟨?_, by omega, rfl, heldMs_eq t ht, ?_, ?_, ?_⟩
  · unfold uintMul BUTTON_SCAN_PERIODICITY
    apply Nat.mod_eq_of_lt
    omega
  · rw [heldMs_eq t ht]; exact Iff.rfl
  · rw [heldMs_eq t ht]; exact Iff.rfl
  · rw [heldMs_eq t ht]; exact Iff.rfl

/-- Witness of C15 at the largest counter value and the smallest width. -/
theorem held_time_product_exact_witness :
    uintMul 16 255 BUTTON_SCAN_PERIODICITY = 255 * 100 ∧ heldMs 255 = 255 * 100 :=
  have h := held_time_product_exact 255 16 (by decide) (by decide)
  ⟨h.1, h.2.2.2.1⟩

/-! ## The blink tasks of Task_2 -/

/-- C16, evaluated on the code: one iteration of `vidLED100MS_Task` is high, delay 100,
low, delay 100 on `PORT_0` `PIN0`, and one of `vidLED500MS_Task` is high, delay 500, low,
delay 500 on `PIN1`; but one iteration of `vidLED1000MS_Task` is high, delay 500, low,
delay 500 on `PIN2`, not delay 1000, so its delays are those of `vidLED500MS_Task`. -/
theorem led1000ms_task_delays_500 :
    vidLED100MS_Task_iter =
      [Action.GPIO_write portX_t.PORT_0 pinX_t.PIN0 PIN_IS_HIGH, Action.vTaskDelay 100,
       Action.GPIO_write portX_t.PORT_0 pinX_t.PIN0 PIN_IS_LOW, Action.vTaskDelay 100] ∧
    vidLED500MS_Task_iter =
      [Action.GPIO_write portX_t.PORT_0 pinX_t.PIN1 PIN_IS_HIGH, Action.vTaskDelay 500,
       Action.GPIO_write portX_t.PORT_0 pinX_t.PIN1 PIN_IS_LOW, Action.vTaskDelay 500] ∧
    vidLED1000MS_Task_iter =
      [Action.GPIO_write portX_t.PORT_0 pinX_t.PIN2 PIN_IS_HIGH, Action.vTaskDelay 500,
       Action.GPIO_write portX_t.PORT_0 pinX_t.PIN2 PIN_IS_LOW, Action.vTaskDelay 500] ∧
    vidLED1000MS_Task_iter ≠
      [Action.GPIO_write portX_t.PORT_0 pinX_t.PIN2 PIN_IS_HIGH, Action.vTaskDelay 1000,
       Action.GPIO_write portX_t.PORT_0 pinX_t.PIN2 PIN_IS_LOW, Action.vTaskDelay 1000] ∧
    delaysOf vidLED1000MS_Task_iter = [500, 500] ∧
    delaysOf vidLED1000MS_Task_iter = delaysOf vidLED500MS_Task_iter := by
  decide

end RTOS_MC
